import Mathlib

/-!
Shallow embedding of the ISP provisioning backend (services/customer.py,
services/deployment_task.py, services/asset.py, services/audit.py over
db/models.py).  Rows are Lean structures mirroring the SQLAlchemy models;
the relational store is a `DB` record of row lists; each service function
becomes a pure function returning the committed post-state together with
an `Except HTTPException` result (an error result corresponds to the
source raising `HTTPException` after `db.rollback()`, so the returned
state is the pre-state).  Query `filter`/`first`/`get` calls become
`List.filter`/`List.find?` with `decide`-encoded predicates; primary-key
updates become `List.map` guarded on the key; `datetime.now` becomes an
explicit `now : Nat` parameter; server-generated columns that no claim
depends on (`created_at`, `updated_at`, audit `log_id`/`timestamp`) are
omitted.  String quoting of names inside log/detail messages is dropped.
-/

namespace Server

/-- Mirrors `CustomerStatus` in db/models.py. -/
inductive CustomerStatus where
  | Active
  | Inactive
  | Pending
deriving DecidableEq, Repr

/-- Mirrors `AssetType` in db/models.py. -/
inductive AssetType where
  | ONT
  | Router
deriving DecidableEq, Repr

/-- Mirrors `AssetStatus` in db/models.py. -/
inductive AssetStatus where
  | assigned
  | available
  | faulty
  | retired
deriving DecidableEq, Repr

/-- Mirrors `BearingStatus` in db/models.py. -/
inductive BearingStatus where
  | bearing
  | returned
deriving DecidableEq, Repr

/-- Mirrors `PortStatus` in db/models.py. -/
inductive PortStatus where
  | free
  | occupied
deriving DecidableEq, Repr

/-- Mirrors `UserRole` in db/models.py. -/
inductive UserRole where
  | Planner
  | Technician
  | Admin
  | SupportAgent
deriving DecidableEq, Repr

/-- Mirrors `DeploymentTaskStatus` in db/models.py. -/
inductive DeploymentTaskStatus where
  | Scheduled
  | InProgress
  | Completed
  | Failed
deriving DecidableEq, Repr

/-- Mirrors the `.value` string of the Python enum `DeploymentTaskStatus`. -/
def DeploymentTaskStatus.value : DeploymentTaskStatus → String
  | .Scheduled => "Scheduled"
  | .InProgress => "InProgress"
  | .Completed => "Completed"
  | .Failed => "Failed"

/-- Mirrors `AuditLogActionType` in db/models.py. -/
inductive AuditLogActionType where
  | READ
  | UPDATE
  | CREATE
  | DELETE
deriving DecidableEq, Repr

/-- Mirrors the `Customer` model (`created_at` is a server default, omitted). -/
structure Customer where
  customer_id : Nat
  name : String
  address : String
  pincode : String
  plan : String
  status : CustomerStatus
deriving DecidableEq, Repr

/-- Mirrors the `Splitter` model. -/
structure Splitter where
  splitter_id : Nat
  model : String
  status : AssetStatus
  max_ports : Int
  used_ports : Int
  fdh_id : Option Nat
deriving DecidableEq, Repr

/-- Mirrors the `Port` model. -/
structure Port where
  port_id : Nat
  port_status : PortStatus
  customer_id : Option Nat
  splitter_id : Nat
deriving DecidableEq, Repr

/-- Mirrors the `Asset` model. -/
structure Asset where
  asset_id : Nat
  type : AssetType
  model : String
  serial_number : String
  status : AssetStatus
  pincode : String
  assigned_to_customer_id : Option Nat
  port_id : Option Nat
deriving DecidableEq, Repr

/-- Mirrors the `AssetAssignment` model; dates are abstract instants (`Nat`). -/
structure AssetAssignment where
  assignment_id : Nat
  asset_id : Nat
  bearing_status : BearingStatus
  date_of_issue : Nat
  date_of_return : Option Nat
  customer_id : Nat
deriving DecidableEq, Repr

/-- Mirrors the `User` model (`password_hash`, `last_login` are never read by
the embedded operations and are omitted). -/
structure User where
  user_id : Nat
  username : String
  role : UserRole
deriving DecidableEq, Repr

/-- Mirrors the `DeploymentTask` model (`created_at`/`updated_at` server
defaults omitted; `scheduled_date` an abstract instant). -/
structure DeploymentTask where
  task_id : Nat
  customer_id : Nat
  user_id : Nat
  status : DeploymentTaskStatus
  scheduled_date : Nat
  notes : Option String
  step_1 : Bool
  step_2 : Bool
  step_3 : Bool
deriving DecidableEq, Repr

/-- Mirrors the `AuditLog` model restricted to the columns the constructor
call in services/audit.py `create_audit_log` populates (`log_id` and
`timestamp` are database-generated). -/
structure AuditLog where
  user_id : Option Nat
  action_type : AuditLogActionType
  description : String
deriving DecidableEq, Repr

/-- Mirrors `fastapi.HTTPException` as raised by the services: a status code
plus a detail message. -/
structure HTTPException where
  status_code : Nat
  detail : String
deriving DecidableEq, Repr

/-- Visible state of the relational store: one list of rows per table, plus
the autoincrement counters for the primary keys the embedded operations
generate (`customers.customer_id`, `asset_assignments.assignment_id`). -/
structure DB where
  customers : List Customer
  splitters : List Splitter
  ports : List Port
  assets : List Asset
  asset_assignments : List AssetAssignment
  deployment_tasks : List DeploymentTask
  users : List User
  audit_logs : List AuditLog
  next_customer_id : Nat
  next_assignment_id : Nat
deriving DecidableEq, Repr

/-- Mirrors `schemas.customer.CustomerCreate`. -/
structure CustomerCreate where
  name : String
  address : String
  pincode : String
  plan : String
  splitter_id : Nat
  ont_asset_id : Nat
  router_asset_id : Nat
deriving DecidableEq, Repr

/-- Mirrors `schemas.deployment_task.DeploymentTaskChecklistUpdate`. -/
structure DeploymentTaskChecklistUpdate where
  step_1 : Bool
  step_2 : Bool
  step_3 : Bool
deriving DecidableEq, Repr

/-- Mirrors the `AssetSwap` payload as consumed by `swap_assets`
(services/asset.py reads exactly the fields `old_asset_id` and
`new_asset_id`). -/
structure AssetSwap where
  old_asset_id : Nat
  new_asset_id : Nat
deriving DecidableEq, Repr

/-- Mirrors services/audit.py `create_audit_log`: appends one `AuditLog` row
to the session (the caller commits). -/
def create_audit_log (logs : List AuditLog) (user : User)
    (action_type : AuditLogActionType) (description : String) : List AuditLog :=
  logs ++ [{ user_id := some user.user_id, action_type := action_type,
             description := description }]

/-- Folds over a candidate list keeping the row with the smallest `port_id`,
mirroring `ORDER BY ports.port_id LIMIT 1` over the filtered rows. -/
def pickLowestPort : Option Port → List Port → Option Port
  | acc, [] => acc
  | none, p :: ps => pickLowestPort (some p) ps
  | some q, p :: ps =>
      pickLowestPort (some (if p.port_id < q.port_id then p else q)) ps

/-- Mirrors the port query in services/customer.py `create_customer`:
`select(Port).where(Port.splitter_id == splitter_id, Port.port_status ==
PortStatus.free).order_by(Port.port_id).limit(1)`. -/
def selectFreePort (ports : List Port) (splitter_id : Nat) : Option Port :=
  pickLowestPort none
    (ports.filter (fun p =>
      decide (p.splitter_id = splitter_id) &&
      decide (p.port_status = PortStatus.free)))

/-- Mirrors services/customer.py `create_customer`.  All four validations
run before any mutation; each `raise HTTPException` path lands in the
`except HTTPException: db.rollback(); raise` handler, so an error result
carries the unchanged pre-state. -/
def create_customer (db : DB) (customer : CustomerCreate) (current_user : User)
    (now : Nat) : DB × Except HTTPException Customer :=
  match selectFreePort db.ports customer.splitter_id with
  | none =>
      (db, .error ⟨409, "No free ports available for splitter ID " ++
        toString customer.splitter_id ++ ". Please select another."⟩)
  | some port_to_assign =>
    match db.splitters.find? (fun s => decide (s.splitter_id = customer.splitter_id)) with
    | none => (db, .error ⟨404, "Splitter not found."⟩)
    | some _splitter_to_update =>
      match db.assets.find? (fun a => decide (a.asset_id = customer.ont_asset_id)) with
      | none =>
          (db, .error ⟨409, "ONT Asset (ID: " ++ toString customer.ont_asset_id ++
            ") is not available or is not an ONT."⟩)
      | some ont_asset =>
        if ont_asset.status = AssetStatus.available ∧ ont_asset.type = AssetType.ONT then
          match db.assets.find? (fun a => decide (a.asset_id = customer.router_asset_id)) with
          | none =>
              (db, .error ⟨409, "Router Asset (ID: " ++
                toString customer.router_asset_id ++
                ") is not available or is not a Router."⟩)
          | some router_asset =>
            if router_asset.status = AssetStatus.available ∧
                router_asset.type = AssetType.Router then
              let cid := db.next_customer_id
              let new_customer : Customer :=
                { customer_id := cid, name := customer.name,
                  address := customer.address, pincode := customer.pincode,
                  plan := customer.plan, status := CustomerStatus.Pending }
              let ports' := db.ports.map (fun p =>
                if p.port_id = port_to_assign.port_id then
                  { p with port_status := PortStatus.occupied,
                           customer_id := some cid }
                else p)
              let splitters' := db.splitters.map (fun s =>
                if s.splitter_id = customer.splitter_id then
                  { s with used_ports := s.used_ports + 1 }
                else s)
              let assets' := db.assets.map (fun a =>
                if a.asset_id = ont_asset.asset_id then
                  { a with status := AssetStatus.assigned,
                           assigned_to_customer_id := some cid,
                           port_id := some port_to_assign.port_id }
                else if a.asset_id = router_asset.asset_id then
                  { a with status := AssetStatus.assigned,
                           assigned_to_customer_id := some cid }
                else a)
              let ont_assignment : AssetAssignment :=
                { assignment_id := db.next_assignment_id,
                  asset_id := ont_asset.asset_id,
                  bearing_status := BearingStatus.bearing,
                  date_of_issue := now, date_of_return := none,
                  customer_id := cid }
              let router_assignment : AssetAssignment :=
                { assignment_id := db.next_assignment_id + 1,
                  asset_id := router_asset.asset_id,
                  bearing_status := BearingStatus.bearing,
                  date_of_issue := now, date_of_return := none,
                  customer_id := cid }
              let logs' := create_audit_log db.audit_logs current_user
                AuditLogActionType.CREATE
                ("User " ++ current_user.username ++
                 " created and provisioned customer " ++ new_customer.name ++
                 " (ID: " ++ toString new_customer.customer_id ++ ").")
              ({ db with
                  customers := db.customers ++ [new_customer],
                  ports := ports',
                  splitters := splitters',
                  assets := assets',
                  asset_assignments :=
                    db.asset_assignments ++ [ont_assignment, router_assignment],
                  audit_logs := logs',
                  next_customer_id := cid + 1,
                  next_assignment_id := db.next_assignment_id + 2 },
               .ok new_customer)
            else
              (db, .error ⟨409, "Router Asset (ID: " ++
                toString customer.router_asset_id ++
                ") is not available or is not a Router."⟩)
        else
          (db, .error ⟨409, "ONT Asset (ID: " ++ toString customer.ont_asset_id ++
            ") is not available or is not an ONT."⟩)

/-- Mirrors services/deployment_task.py `update_task_checklist`.  The three
`raise HTTPException` guards all precede the first mutation, so an error
result carries the unchanged pre-state.  On the mutating path the task row
(keyed by its primary key) takes the submitted steps and the status derived
from them; when all three steps are true the linked customer row (if the
`task.customer` relationship resolves) is set to `Active` in the same
commit, and one UPDATE audit row is appended. -/
def update_task_checklist (db : DB) (task_id : Nat)
    (checklist : DeploymentTaskChecklistUpdate) (current_user : User) :
    DB × Except HTTPException DeploymentTask :=
  match db.deployment_tasks.find? (fun t => decide (t.task_id = task_id)) with
  | none => (db, .error ⟨404, "Task not found"⟩)
  | some task =>
    if current_user.role = UserRole.Technician ∧
        ¬ task.user_id = current_user.user_id then
      (db, .error ⟨403, "You are not authorized to update this task."⟩)
    else if task.status = DeploymentTaskStatus.Completed ∨
        task.status = DeploymentTaskStatus.Failed then
      (db, .error ⟨400, "Task is already " ++ task.status.value ++
        " and cannot be modified."⟩)
    else
      let stepped := { task with step_1 := checklist.step_1,
                                 step_2 := checklist.step_2,
                                 step_3 := checklist.step_3 }
      let old_status := task.status
      let updated :=
        if stepped.step_1 && stepped.step_2 && stepped.step_3 then
          { stepped with status := DeploymentTaskStatus.Completed }
        else if stepped.step_1 || stepped.step_2 || stepped.step_3 then
          { stepped with status := DeploymentTaskStatus.InProgress }
        else
          { stepped with status := DeploymentTaskStatus.Scheduled }
      let customers' :=
        if stepped.step_1 && stepped.step_2 && stepped.step_3 then
          match db.customers.find? (fun c => decide (c.customer_id = task.customer_id)) with
          | some _ =>
              db.customers.map (fun c =>
                if c.customer_id = task.customer_id then
                  { c with status := CustomerStatus.Active }
                else c)
          | none => db.customers
        else db.customers
      let log_desc0 := "User " ++ current_user.username ++
        " updated checklist for Task (ID: " ++ toString task.task_id ++
        "). Steps: [1: " ++ toString updated.step_1 ++ ", 2: " ++
        toString updated.step_2 ++ ", 3: " ++ toString updated.step_3 ++ "]."
      let log_desc :=
        if old_status ≠ updated.status then
          let d1 := log_desc0 ++ " Task status changed from " ++
            old_status.value ++ " to " ++ updated.status.value ++ "."
          if updated.status = DeploymentTaskStatus.Completed then
            d1 ++ " Customer status set to Active."
          else d1
        else log_desc0
      let tasks' := db.deployment_tasks.map (fun t =>
        if t.task_id = task.task_id then updated else t)
      ({ db with
          deployment_tasks := tasks',
          customers := customers',
          audit_logs := create_audit_log db.audit_logs current_user
            AuditLogActionType.UPDATE log_desc },
       .ok updated)

/-- Mirrors services/customer.py `deactivate_customer_and_provisioning`.
The `NotFound` guard and the already-`Inactive` early return precede every
mutation and every audit append; the mutating path frees the occupied port,
decrements the splitter counter (floored at 0), releases the ONT and Router
assets, closes their open assignment rows, appends one UPDATE audit row and
commits.  Relationship loads (`customer.ports`, `customer.assets`,
`customer.asset_assignments`) become filters on the corresponding foreign
keys. -/
def deactivate_customer_and_provisioning (db : DB) (customer_id : Nat)
    (current_user : User) (now : Nat) : DB × Except HTTPException Customer :=
  match db.customers.find? (fun c => decide (c.customer_id = customer_id)) with
  | none => (db, .error ⟨404, "Customer not found."⟩)
  | some customer =>
    if customer.status = CustomerStatus.Inactive then
      (db, .ok customer)
    else
      let customer_ports := db.ports.filter
        (fun p => decide (p.customer_id = some customer.customer_id))
      let customer_assets := db.assets.filter
        (fun a => decide (a.assigned_to_customer_id = some customer.customer_id))
      let customer_assignments := db.asset_assignments.filter
        (fun x => decide (x.customer_id = customer.customer_id))
      let port_to_free := customer_ports.find?
        (fun p => decide (p.port_status = PortStatus.occupied))
      let splitter_to_update : Option Splitter :=
        match port_to_free with
        | some p => db.splitters.find? (fun s => decide (s.splitter_id = p.splitter_id))
        | none => none
      let ont_asset := customer_assets.find? (fun a =>
        decide (a.type = AssetType.ONT) && decide (a.status = AssetStatus.assigned))
      let router_asset := customer_assets.find? (fun a =>
        decide (a.type = AssetType.Router) && decide (a.status = AssetStatus.assigned))
      let ont_assignment : Option AssetAssignment :=
        match ont_asset with
        | some oa => customer_assignments.find? (fun x =>
            decide (x.asset_id = oa.asset_id) && decide (x.date_of_return = none))
        | none => none
      let router_assignment : Option AssetAssignment :=
        match router_asset with
        | some ra => customer_assignments.find? (fun x =>
            decide (x.asset_id = ra.asset_id) && decide (x.date_of_return = none))
        | none => none
      let customers' := db.customers.map (fun c =>
        if c.customer_id = customer.customer_id then
          { c with status := CustomerStatus.Inactive }
        else c)
      let ports' : List Port :=
        match port_to_free with
        | some p => db.ports.map (fun q =>
            if q.port_id = p.port_id then
              { q with port_status := PortStatus.free, customer_id := none }
            else q)
        | none => db.ports
      let splitters' : List Splitter :=
        match splitter_to_update with
        | some s => db.splitters.map (fun t =>
            if t.splitter_id = s.splitter_id then
              { t with used_ports := max 0 (t.used_ports - 1) }
            else t)
        | none => db.splitters
      let assets1 : List Asset :=
        match ont_asset with
        | some oa => db.assets.map (fun a =>
            if a.asset_id = oa.asset_id then
              { a with status := AssetStatus.available,
                       assigned_to_customer_id := none, port_id := none }
            else a)
        | none => db.assets
      let assets2 : List Asset :=
        match router_asset with
        | some ra => assets1.map (fun a =>
            if a.asset_id = ra.asset_id then
              { a with status := AssetStatus.available,
                       assigned_to_customer_id := none }
            else a)
        | none => assets1
      let assignments1 : List AssetAssignment :=
        match ont_assignment with
        | some oa => db.asset_assignments.map (fun x =>
            if x.assignment_id = oa.assignment_id then
              { x with date_of_return := some now,
                       bearing_status := BearingStatus.returned }
            else x)
        | none => db.asset_assignments
      let assignments2 : List AssetAssignment :=
        match router_assignment with
        | some ra => assignments1.map (fun x =>
            if x.assignment_id = ra.assignment_id then
              { x with date_of_return := some now,
                       bearing_status := BearingStatus.returned }
            else x)
        | none => assignments1
      let logs' := create_audit_log db.audit_logs current_user
        AuditLogActionType.UPDATE
        ("User " ++ current_user.username ++ " deactivated customer " ++
         customer.name ++ " (ID: " ++ toString customer.customer_id ++ ").")
      ({ db with
          customers := customers',
          ports := ports',
          splitters := splitters',
          assets := assets2,
          asset_assignments := assignments2,
          audit_logs := logs' },
       .ok { customer with status := CustomerStatus.Inactive })

/-- Value of the Python expression `AssetAssignment.date_of_return is None`
as written in the `swap_assets` query filter: `is` compares the SQLAlchemy
column object itself with `None` by identity when the query is built, so
the expression is the constant `False` and the filter matches no rows. -/
def dateOfReturn_is_None_as_filter : Bool := false

/-- Mirrors services/asset.py `swap_assets`.  All validations precede the
mutations; the open-assignment lookup uses the faulty
`AssetAssignment.date_of_return is None` conjunct (see
`dateOfReturn_is_None_as_filter`), the old asset is released, the new asset
takes over the customer and port bindings, a fresh open assignment row is
appended for the new asset, and one UPDATE audit row is appended. -/
def swap_assets (db : DB) (swap_data : AssetSwap) (current_user : User)
    (now : Nat) : DB × Except HTTPException Asset :=
  let old? := db.assets.find? (fun a => decide (a.asset_id = swap_data.old_asset_id))
  let new? := db.assets.find? (fun a => decide (a.asset_id = swap_data.new_asset_id))
  match old?, new? with
  | none, _ => (db, .error ⟨404, "One or both assets not found."⟩)
  | _, none => (db, .error ⟨404, "One or both assets not found."⟩)
  | some old_asset, some new_asset =>
    if ¬ old_asset.status = AssetStatus.assigned then
      (db, .error ⟨400, "Old asset is not currently assigned."⟩)
    else if ¬ new_asset.status = AssetStatus.available then
      (db, .error ⟨400, "New asset is not available."⟩)
    else if ¬ old_asset.type = new_asset.type then
      (db, .error ⟨400, "Cannot swap assets of different types."⟩)
    else
      let customer_id := old_asset.assigned_to_customer_id
      let port_id := old_asset.port_id
      let old_assignment := (db.asset_assignments.filter (fun x =>
        decide (x.asset_id = old_asset.asset_id) &&
        dateOfReturn_is_None_as_filter)).head?
      let assignments1 : List AssetAssignment :=
        match old_assignment with
        | some oa => db.asset_assignments.map (fun x =>
            if x.assignment_id = oa.assignment_id then
              { x with date_of_return := some now,
                       bearing_status := BearingStatus.returned }
            else x)
        | none => db.asset_assignments
      let assets' := db.assets.map (fun a =>
        if a.asset_id = old_asset.asset_id then
          { a with status := AssetStatus.available,
                   assigned_to_customer_id := none, port_id := none }
        else if a.asset_id = new_asset.asset_id then
          { a with status := AssetStatus.assigned,
                   assigned_to_customer_id := customer_id, port_id := port_id }
        else a)
      let new_assignment : AssetAssignment :=
        { assignment_id := db.next_assignment_id,
          asset_id := new_asset.asset_id,
          bearing_status := BearingStatus.bearing,
          date_of_issue := now, date_of_return := none,
          customer_id := customer_id.getD 0 }
      let logs' := create_audit_log db.audit_logs current_user
        AuditLogActionType.UPDATE
        ("User " ++ current_user.username ++ " swapped " ++
         old_asset.serial_number ++ " -> " ++ new_asset.serial_number ++
         " for Customer ID " ++ toString (customer_id.getD 0) ++ ".")
      ({ db with
          assets := assets',
          asset_assignments := assignments1 ++ [new_assignment],
          audit_logs := logs',
          next_assignment_id := db.next_assignment_id + 1 },
       .ok { new_asset with status := AssetStatus.assigned,
                            assigned_to_customer_id := customer_id,
                            port_id := port_id })

/-- A pointwise row update that does not change the value of the query
predicate commutes with `find?`: the first matching row of the updated
table is the update of the first matching row of the original table. -/
theorem find?_map_pres {α : Type} (f : α → α) (c : α → Bool)
    (hpres : ∀ x, c (f x) = c x) :
    ∀ l : List α, (l.map f).find? c = (l.find? c).map f := by
  intro l
  induction l with
  | nil => rfl
  | cons x xs ih =>
      by_cases hx : c x = true
      · simp [List.find?_cons, hpres, hx]
      · simp only [Bool.not_eq_true] at hx
        simp [List.find?_cons, hpres, hx, ih]

/-- Rows untouched by a keyed update stay in the table. -/
theorem mem_map_of_unchanged {α : Type} (f : α → α) (l : List α) (a : α)
    (ha : a ∈ l) (hf : f a = a) : a ∈ l.map f := by
  have : f a ∈ l.map f := List.mem_map_of_mem f ha
  rwa [hf] at this

/-- The port fold returns an element of the candidate list (or the seed). -/
theorem pickLowestPort_mem :
    ∀ (l : List Port) (acc : Option Port) (q : Port),
      pickLowestPort acc l = some q → q ∈ l ∨ acc = some q := by
  intro l
  induction l with
  | nil => intro acc q h; right; simpa [pickLowestPort] using h
  | cons p ps ih =>
      intro acc q h
      match acc with
      | none =>
          rcases ih (some p) q (by simpa [pickLowestPort] using h) with hmem | heq
          · exact Or.inl (List.mem_cons_of_mem p hmem)
          · left
            simp only [Option.some.injEq] at heq
            simp [heq]
      | some r =>
          rcases ih (some (if p.port_id < r.port_id then p else r)) q
              (by simpa [pickLowestPort] using h) with hmem | heq
          · exact Or.inl (List.mem_cons_of_mem p hmem)
          · simp only [Option.some.injEq] at heq
            by_cases hlt : p.port_id < r.port_id
            · left; simp [hlt] at heq; simp [heq]
            · right; simp [hlt] at heq; simp [heq]

/-- The port fold returns a row whose `port_id` is a lower bound for the
candidate list and for the seed. -/
theorem pickLowestPort_le :
    ∀ (l : List Port) (acc : Option Port) (q : Port),
      pickLowestPort acc l = some q →
        (∀ p ∈ l, q.port_id ≤ p.port_id) ∧
        (∀ r, acc = some r → q.port_id ≤ r.port_id) := by
  intro l
  induction l with
  | nil =>
      intro acc q h
      refine ⟨by simp, ?_⟩
      intro r hr
      simp [pickLowestPort] at h
      rw [h] at hr
      simp only [Option.some.injEq] at hr
      simp [hr]
  | cons p ps ih =>
      intro acc q h
      match acc with
      | none =>
          obtain ⟨h1, h2⟩ := ih (some p) q (by simpa [pickLowestPort] using h)
          refine ⟨?_, by simp⟩
          intro x hx
          rcases List.mem_cons.mp hx with hxp | hxs
          · rw [hxp]; exact h2 p rfl
          · exact h1 x hxs
      | some r =>
          obtain ⟨h1, h2⟩ := ih (some (if p.port_id < r.port_id then p else r)) q
            (by simpa [pickLowestPort] using h)
          have hq : q.port_id ≤ (if p.port_id < r.port_id then p else r).port_id :=
            h2 _ rfl
          constructor
          · intro x hx
            rcases List.mem_cons.mp hx with hxp | hxs
            · by_cases hlt : p.port_id < r.port_id
              · rw [hxp]; rw [if_pos hlt] at hq; exact hq
              · rw [hxp]
                rw [if_neg hlt] at hq
                simp only [Nat.not_lt] at hlt
                exact le_trans hq hlt
            · exact h1 x hxs
          · intro s hs
            simp only [Option.some.injEq] at hs
            subst hs
            by_cases hlt : p.port_id < r.port_id
            · rw [if_pos hlt] at hq
              exact le_trans hq (Nat.le_of_lt hlt)
            · rw [if_neg hlt] at hq; exact hq

/-- Seeded, the port fold always returns a row. -/
theorem pickLowestPort_some :
    ∀ (l : List Port) (q : Port), ∃ r, pickLowestPort (some q) l = some r := by
  intro l
  induction l with
  | nil => intro q; exact ⟨q, rfl⟩
  | cons p ps ih =>
      intro q
      obtain ⟨r, hr⟩ := ih (if p.port_id < q.port_id then p else q)
      exact ⟨r, by simpa [pickLowestPort] using hr⟩

/-- If the splitter has a free port row, the port query returns a row. -/
theorem selectFreePort_isSome (ports : List Port) (sid : Nat) (p : Port)
    (hp : p ∈ ports) (hsid : p.splitter_id = sid)
    (hfree : p.port_status = PortStatus.free) :
    ∃ q, selectFreePort ports sid = some q := by
  have hpf : p ∈ ports.filter (fun x =>
      decide (x.splitter_id = sid) && decide (x.port_status = PortStatus.free)) := by
    rw [List.mem_filter]
    exact ⟨hp, by simp [hsid, hfree]⟩
  rcases hfil : ports.filter (fun x =>
      decide (x.splitter_id = sid) && decide (x.port_status = PortStatus.free)) with
    _ | ⟨x, xs⟩
  · rw [hfil] at hpf; cases hpf
  · obtain ⟨r, hr⟩ := pickLowestPort_some xs x
    refine ⟨r, ?_⟩
    unfold selectFreePort
    rw [hfil]
    simpa [pickLowestPort] using hr

/-- The chosen port is a free port of the splitter belonging to the table,
and its `port_id` is minimal among the splitter's free ports. -/
theorem selectFreePort_spec (ports : List Port) (sid : Nat) (q : Port)
    (h : selectFreePort ports sid = some q) :
    q ∈ ports ∧ q.splitter_id = sid ∧ q.port_status = PortStatus.free ∧
    ∀ p ∈ ports, p.splitter_id = sid → p.port_status = PortStatus.free →
      q.port_id ≤ p.port_id := by
  unfold selectFreePort at h
  have hmem := pickLowestPort_mem _ _ _ h
  have hle := (pickLowestPort_le _ _ _ h).1
  rcases hmem with hmem | habs
  · rw [List.mem_filter] at hmem
    obtain ⟨hql, hqp⟩ := hmem
    simp only [Bool.and_eq_true, decide_eq_true_eq] at hqp
    refine ⟨hql, hqp.1, hqp.2, ?_⟩
    intro p hpl hpsid hpfree
    exact hle p (by
      rw [List.mem_filter]
      exact ⟨hpl, by simp [hpsid, hpfree]⟩)
  · cases habs

/-- Concrete technician used by the witness states. -/
def wTech : User := { user_id := 7, username := "tech", role := UserRole.Technician }

/-- Concrete admin used by the witness states. -/
def wAdmin : User := { user_id := 1, username := "admin", role := UserRole.Admin }

/-- Concrete pending customer used by the witness states. -/
def wCustomerPending : Customer :=
  { customer_id := 5, name := "Alice", address := "1 Main St", pincode := "600001",
    plan := "Gold", status := CustomerStatus.Pending }

/-- Concrete scheduled task (assigned to `wTech`, for `wCustomerPending`). -/
def wTaskScheduled : DeploymentTask :=
  { task_id := 3, customer_id := 5, user_id := 7,
    status := DeploymentTaskStatus.Scheduled, scheduled_date := 0, notes := none,
    step_1 := false, step_2 := false, step_3 := false }

/-- Concrete completed task (assigned to `wTech`, for `wCustomerPending`). -/
def wTaskCompleted : DeploymentTask :=
  { task_id := 4, customer_id := 5, user_id := 7,
    status := DeploymentTaskStatus.Completed, scheduled_date := 0, notes := none,
    step_1 := true, step_2 := true, step_3 := true }

/-- Concrete store holding the two witness tasks and their customer. -/
def wDBtasks : DB :=
  { customers := [wCustomerPending], splitters := [], ports := [], assets := [],
    asset_assignments := [], deployment_tasks := [wTaskScheduled, wTaskCompleted],
    users := [wTech], audit_logs := [], next_customer_id := 6,
    next_assignment_id := 1 }

/-- C3: for every non-terminal task that the actor may update, the status
written by `update_task_checklist` is a function of the submitted boolean
triple alone: `Scheduled` when zero steps are true, `InProgress` when one
or two are true, `Completed` when all three are true. -/
theorem update_task_checklist_transition_table
    (db : DB) (task_id : Nat) (cl : DeploymentTaskChecklistUpdate) (u : User)
    (task : DeploymentTask)
    (hfind : db.deployment_tasks.find? (fun t => decide (t.task_id = task_id)) = some task)
    (hperm : ¬ (u.role = UserRole.Technician ∧ ¬ task.user_id = u.user_id))
    (hterm : ¬ (task.status = DeploymentTaskStatus.Completed ∨
      task.status = DeploymentTaskStatus.Failed)) :
    ∃ t, (update_task_checklist db task_id cl u).2 = .ok t ∧
      (let n := (if cl.step_1 then 1 else 0) + (if cl.step_2 then 1 else 0) +
        (if cl.step_3 then 1 else 0)
       (t.status = DeploymentTaskStatus.Scheduled ↔ n = 0) ∧
       (t.status = DeploymentTaskStatus.InProgress ↔ (n = 1 ∨ n = 2)) ∧
       (t.status = DeploymentTaskStatus.Completed ↔ n = 3)) := by
  simp only [update_task_checklist, hfind]
  rw [if_neg hperm, if_neg hterm]
  obtain ⟨s1, s2, s3⟩ := cl
  refine ⟨_, rfl, ?_⟩
  cases s1 <;> cases s2 <;> cases s3 <;> simp

/-- Witness for C3: with one of three steps checked on the scheduled witness
task, the transition table instantiates and yields `InProgress`. -/
theorem update_task_checklist_transition_table_witness :
    ∃ t, (update_task_checklist wDBtasks 3
        { step_1 := true, step_2 := false, step_3 := false } wAdmin).2 = .ok t ∧
      (let n := (if true then 1 else 0) + (if false then 1 else 0) +
        (if false then 1 else 0)
       (t.status = DeploymentTaskStatus.Scheduled ↔ n = 0) ∧
       (t.status = DeploymentTaskStatus.InProgress ↔ (n = 1 ∨ n = 2)) ∧
       (t.status = DeploymentTaskStatus.Completed ↔ n = 3)) :=
  update_task_checklist_transition_table wDBtasks 3
    { step_1 := true, step_2 := false, step_3 := false } wAdmin wTaskScheduled
    (by decide) (by decide) (by decide)

/-- C4: when an update drives a non-terminal task to `Completed` (all three
steps true) and the linked customer row exists, the committed post-state has
the task row `Completed` and the customer row `Active` together. -/
theorem update_task_checklist_completion_cascade
    (db : DB) (task_id : Nat) (cl : DeploymentTaskChecklistUpdate) (u : User)
    (task : DeploymentTask) (cust : Customer)
    (hfind : db.deployment_tasks.find? (fun t => decide (t.task_id = task_id)) = some task)
    (hperm : ¬ (u.role = UserRole.Technician ∧ ¬ task.user_id = u.user_id))
    (hterm : ¬ (task.status = DeploymentTaskStatus.Completed ∨
      task.status = DeploymentTaskStatus.Failed))
    (hsteps : cl.step_1 = true ∧ cl.step_2 = true ∧ cl.step_3 = true)
    (hcust : db.customers.find? (fun c => decide (c.customer_id = task.customer_id)) =
      some cust) :
    (∃ t, (update_task_checklist db task_id cl u).2 = .ok t ∧
      t.status = DeploymentTaskStatus.Completed) ∧
    (∃ t, (update_task_checklist db task_id cl u).1.deployment_tasks.find?
        (fun x => decide (x.task_id = task.task_id)) = some t ∧
      t.status = DeploymentTaskStatus.Completed) ∧
    (update_task_checklist db task_id cl u).1.customers.find?
        (fun c => decide (c.customer_id = task.customer_id)) =
      some { cust with status := CustomerStatus.Active } := by
  obtain ⟨h1, h2, h3⟩ := hsteps
  have htid : task.task_id = task_id := by
    have := List.find?_some hfind
    simpa using this
  have hcid : cust.customer_id = task.customer_id := by
    have := List.find?_some hcust
    simpa using this
  subst htid
  simp only [update_task_checklist, hfind]
  rw [if_neg hperm, if_neg hterm]
  simp only [h1, h2, h3, Bool.and_self, if_true, hcust]
  refine ⟨⟨_, rfl, rfl⟩, ?_, ?_⟩
  · rw [find?_map_pres]
    · rw [hfind]
      exact ⟨_, rfl, by simp⟩
    · intro x
      by_cases hx : x.task_id = task.task_id
      · simp [hx]
      · simp [hx]
  · rw [find?_map_pres]
    · rw [hcust]
      simp [hcid]
    · intro x
      by_cases hx : x.customer_id = task.customer_id
      · simp [hx]
      · simp [hx]

/-- Witness for C4: checking all three steps on the scheduled witness task
completes it and activates its customer in the same committed state. -/
theorem update_task_checklist_completion_cascade_witness :
    (∃ t, (update_task_checklist wDBtasks 3
        { step_1 := true, step_2 := true, step_3 := true } wAdmin).2 = .ok t ∧
      t.status = DeploymentTaskStatus.Completed) ∧
    (∃ t, (update_task_checklist wDBtasks 3
        { step_1 := true, step_2 := true, step_3 := true } wAdmin).1.deployment_tasks.find?
        (fun x => decide (x.task_id = wTaskScheduled.task_id)) = some t ∧
      t.status = DeploymentTaskStatus.Completed) ∧
    (update_task_checklist wDBtasks 3
        { step_1 := true, step_2 := true, step_3 := true } wAdmin).1.customers.find?
        (fun c => decide (c.customer_id = wTaskScheduled.customer_id)) =
      some { wCustomerPending with status := CustomerStatus.Active } :=
  update_task_checklist_completion_cascade wDBtasks 3
    { step_1 := true, step_2 := true, step_3 := true } wAdmin wTaskScheduled
    wCustomerPending (by decide) (by decide) (by decide) (by decide) (by decide)

/-- C5: a task already `Completed` or `Failed` rejects every checklist
update from every permitted actor with a 400 `InvalidState` error, and the
committed state — the task, its customer, everything — is the pre-state. -/
theorem update_task_checklist_terminal_guard
    (db : DB) (task_id : Nat) (cl : DeploymentTaskChecklistUpdate) (u : User)
    (task : DeploymentTask)
    (hfind : db.deployment_tasks.find? (fun t => decide (t.task_id = task_id)) = some task)
    (hperm : ¬ (u.role = UserRole.Technician ∧ ¬ task.user_id = u.user_id))
    (hterm : task.status = DeploymentTaskStatus.Completed ∨
      task.status = DeploymentTaskStatus.Failed) :
    update_task_checklist db task_id cl u =
      (db, .error ⟨400, "Task is already " ++ task.status.value ++
        " and cannot be modified."⟩) := by
  simp only [update_task_checklist, hfind]
  rw [if_neg hperm, if_pos hterm]

/-- Witness for C5: updating the completed witness task is rejected with a
400 error and the store is untouched. -/
theorem update_task_checklist_terminal_guard_witness :
    update_task_checklist wDBtasks 4
        { step_1 := false, step_2 := false, step_3 := false } wAdmin =
      (wDBtasks, .error ⟨400, "Task is already " ++ wTaskCompleted.status.value ++
        " and cannot be modified."⟩) :=
  update_task_checklist_terminal_guard wDBtasks 4
    { step_1 := false, step_2 := false, step_3 := false } wAdmin wTaskCompleted
    (by decide) (by decide) (by decide)

/-- C8: on an existing task, a `Technician` actor receives a 403 `Forbidden`
error exactly when the task is not their own, while `Planner` and `Admin`
actors are never rejected with 403, whatever `task.user_id` is. -/
theorem update_task_checklist_technician_permission
    (db : DB) (task_id : Nat) (cl : DeploymentTaskChecklistUpdate) (u : User)
    (task : DeploymentTask)
    (hfind : db.deployment_tasks.find? (fun t => decide (t.task_id = task_id)) = some task) :
    (u.role = UserRole.Technician →
      ((∃ e, (update_task_checklist db task_id cl u).2 = .error e ∧
        e.status_code = 403) ↔ ¬ task.user_id = u.user_id)) ∧
    ((u.role = UserRole.Planner ∨ u.role = UserRole.Admin) →
      ∀ e, (update_task_checklist db task_id cl u).2 = .error e →
        ¬ e.status_code = 403) := by
  simp only [update_task_checklist, hfind]
  by_cases hperm : u.role = UserRole.Technician ∧ ¬ task.user_id = u.user_id
  · rw [if_pos hperm]
    constructor
    · intro _
      constructor
      · intro _; exact hperm.2
      · intro _; exact ⟨⟨403, "You are not authorized to update this task."⟩, rfl, rfl⟩
    · intro hrole
      rcases hrole with h | h <;> rw [h] at hperm <;> simp at hperm
  · rw [if_neg hperm]
    by_cases hterm : task.status = DeploymentTaskStatus.Completed ∨
        task.status = DeploymentTaskStatus.Failed
    · rw [if_pos hterm]
      constructor
      · intro hrole
        constructor
        · rintro ⟨e, he, hcode⟩
          simp only [Except.error.injEq] at he
          rw [← he] at hcode
          simp at hcode
        · intro hne
          exact absurd ⟨hrole, hne⟩ hperm
      · intro _ e he
        simp only [Except.error.injEq] at he
        rw [← he]
        simp
    · rw [if_neg hterm]
      constructor
      · intro hrole
        constructor
        · rintro ⟨e, he, _⟩
          simp at he
        · intro hne
          exact absurd ⟨hrole, hne⟩ hperm
      · intro _ e he
        simp at he

/-- Witness for C8: for the technician who owns the scheduled witness task,
the permission equivalence instantiates (no 403 since the task is theirs). -/
theorem update_task_checklist_technician_permission_witness :
    (wTech.role = UserRole.Technician →
      ((∃ e, (update_task_checklist wDBtasks 3
          { step_1 := false, step_2 := false, step_3 := true } wTech).2 = .error e ∧
        e.status_code = 403) ↔ ¬ wTaskScheduled.user_id = wTech.user_id)) ∧
    ((wTech.role = UserRole.Planner ∨ wTech.role = UserRole.Admin) →
      ∀ e, (update_task_checklist wDBtasks 3
          { step_1 := false, step_2 := false, step_3 := true } wTech).2 = .error e →
        ¬ e.status_code = 403) :=
  update_task_checklist_technician_permission wDBtasks 3
    { step_1 := false, step_2 := false, step_3 := true } wTech wTaskScheduled
    (by decide)

/-- Concrete splitter with one free port used by the provisioning witness. -/
def wSplitter : Splitter :=
  { splitter_id := 1, model := "SPL-8", status := AssetStatus.available,
    max_ports := 8, used_ports := 0, fdh_id := none }

/-- Concrete free port on `wSplitter`. -/
def wPortFree : Port :=
  { port_id := 11, port_status := PortStatus.free, customer_id := none,
    splitter_id := 1 }

/-- Concrete available ONT asset. -/
def wOnt : Asset :=
  { asset_id := 21, type := AssetType.ONT, model := "ONT-X",
    serial_number := "SN-ONT-1", status := AssetStatus.available,
    pincode := "600001", assigned_to_customer_id := none, port_id := none }

/-- Concrete available Router asset. -/
def wRouter : Asset :=
  { asset_id := 22, type := AssetType.Router, model := "RTR-X",
    serial_number := "SN-RTR-1", status := AssetStatus.available,
    pincode := "600001", assigned_to_customer_id := none, port_id := none }

/-- Concrete store ready for one provisioning. -/
def wDBprov : DB :=
  { customers := [], splitters := [wSplitter], ports := [wPortFree],
    assets := [wOnt, wRouter], asset_assignments := [], deployment_tasks := [],
    users := [wAdmin], audit_logs := [], next_customer_id := 1,
    next_assignment_id := 1 }

/-- Empty store for the missing-splitter counterexample. -/
def wDBempty : DB :=
  { customers := [], splitters := [], ports := [], assets := [],
    asset_assignments := [], deployment_tasks := [], users := [],
    audit_logs := [], next_customer_id := 1, next_assignment_id := 1 }

/-- Provisioning payload naming splitter 1 and assets 21 and 22. -/
def wCreate : CustomerCreate :=
  { name := "Bob", address := "2 Side St", pincode := "600002", plan := "Silver",
    splitter_id := 1, ont_asset_id := 21, router_asset_id := 22 }

/-- C1: with a free port on the splitter, the splitter present, an available
ONT and an available Router, `create_customer` succeeds with a `Pending`
customer, occupies the lowest-id free port of the splitter binding it to the
new customer, increments the splitter's `used_ports` by exactly one, assigns
both assets to the new customer (the ONT also taking the chosen `port_id`,
the Router keeping none), leaves every other port untouched, and appends
exactly two open `bearing` assignment rows. -/
theorem create_customer_provisions
    (db : DB) (c : CustomerCreate) (u : User) (now : Nat)
    (S : Splitter) (A1 A2 : Asset) (p0 : Port)
    (hp0 : p0 ∈ db.ports) (hp0s : p0.splitter_id = c.splitter_id)
    (hp0f : p0.port_status = PortStatus.free)
    (hS : db.splitters.find? (fun s => decide (s.splitter_id = c.splitter_id)) = some S)
    (hA1 : db.assets.find? (fun a => decide (a.asset_id = c.ont_asset_id)) = some A1)
    (hA1t : A1.type = AssetType.ONT) (hA1s : A1.status = AssetStatus.available)
    (hA2 : db.assets.find? (fun a => decide (a.asset_id = c.router_asset_id)) = some A2)
    (hA2t : A2.type = AssetType.Router) (hA2s : A2.status = AssetStatus.available)
    (hA2p : A2.port_id = none) :
    ∃ chosen,
      selectFreePort db.ports c.splitter_id = some chosen ∧
      chosen ∈ db.ports ∧ chosen.splitter_id = c.splitter_id ∧
      chosen.port_status = PortStatus.free ∧
      (∀ p ∈ db.ports, p.splitter_id = c.splitter_id →
        p.port_status = PortStatus.free → chosen.port_id ≤ p.port_id) ∧
      (create_customer db c u now).2 = .ok
        { customer_id := db.next_customer_id, name := c.name, address := c.address,
          pincode := c.pincode, plan := c.plan, status := CustomerStatus.Pending } ∧
      (create_customer db c u now).1.customers = db.customers ++
        [{ customer_id := db.next_customer_id, name := c.name, address := c.address,
           pincode := c.pincode, plan := c.plan, status := CustomerStatus.Pending }] ∧
      { chosen with port_status := PortStatus.occupied,
                    customer_id := some db.next_customer_id } ∈
        (create_customer db c u now).1.ports ∧
      (∀ p ∈ db.ports, ¬ p.port_id = chosen.port_id →
        p ∈ (create_customer db c u now).1.ports) ∧
      (create_customer db c u now).1.splitters.find?
          (fun s => decide (s.splitter_id = c.splitter_id)) =
        some { S with used_ports := S.used_ports + 1 } ∧
      (∃ a1, (create_customer db c u now).1.assets.find?
            (fun a => decide (a.asset_id = c.ont_asset_id)) = some a1 ∧
        a1.status = AssetStatus.assigned ∧
        a1.assigned_to_customer_id = some db.next_customer_id ∧
        a1.port_id = some chosen.port_id) ∧
      (∃ a2, (create_customer db c u now).1.assets.find?
            (fun a => decide (a.asset_id = c.router_asset_id)) = some a2 ∧
        a2.status = AssetStatus.assigned ∧
        a2.assigned_to_customer_id = some db.next_customer_id ∧
        a2.port_id = none) ∧
      (∃ r1 r2, (create_customer db c u now).1.asset_assignments =
          db.asset_assignments ++ [r1, r2] ∧
        r1.asset_id = c.ont_asset_id ∧ r1.bearing_status = BearingStatus.bearing ∧
        r1.date_of_return = none ∧ r1.customer_id = db.next_customer_id ∧
        r2.asset_id = c.router_asset_id ∧ r2.bearing_status = BearingStatus.bearing ∧
        r2.date_of_return = none ∧ r2.customer_id = db.next_customer_id) := by
  obtain ⟨chosen, hch⟩ := selectFreePort_isSome db.ports c.splitter_id p0 hp0 hp0s hp0f
  obtain ⟨hchmem, hchsid, hchfree, hchmin⟩ := selectFreePort_spec _ _ _ hch
  have hA1id : A1.asset_id = c.ont_asset_id := by
    have := List.find?_some hA1
    simpa using this
  have hA2id : A2.asset_id = c.router_asset_id := by
    have := List.find?_some hA2
    simpa using this
  have hneq : ¬ c.ont_asset_id = c.router_asset_id := by
    intro he
    rw [← he] at hA2
    rw [hA1] at hA2
    simp only [Option.some.injEq] at hA2
    rw [hA2, hA2t] at hA1t
    cases hA1t
  have hA2ne : ¬ A2.asset_id = A1.asset_id := by
    rw [hA1id, hA2id]
    intro he
    exact hneq he.symm
  refine ⟨chosen, hch, hchmem, hchsid, hchfree, hchmin, ?_⟩
  simp only [create_customer, hch, hS, hA1, hA2]
  rw [if_pos ⟨hA1s, hA1t⟩, if_pos ⟨hA2s, hA2t⟩]
  refine ⟨rfl, rfl, ?_, ?_, ?_, ?_, ?_, ?_⟩
  · exact List.mem_map.mpr ⟨chosen, hchmem, by simp⟩
  · intro p hp hne
    exact List.mem_map.mpr ⟨p, hp, by simp [hne]⟩
  · rw [find?_map_pres]
    · rw [hS]
      have hSid : S.splitter_id = c.splitter_id := by
        have := List.find?_some hS
        simpa using this
      simp [hSid]
    · intro x
      by_cases hx : x.splitter_id = c.splitter_id
      · simp [hx]
      · simp [hx]
  · rw [find?_map_pres]
    · rw [hA1]
      exact ⟨_, rfl, by simp, by simp, by simp⟩
    · intro x
      by_cases hx : x.asset_id = A1.asset_id
      · simp [hx]
      · by_cases hx2 : x.asset_id = A2.asset_id
        · simp [hx, hx2, hA2ne]
        · simp [hx, hx2]
  · rw [find?_map_pres]
    · rw [hA2]
      exact ⟨_, rfl, by simp [hA2ne], by simp [hA2ne], by simp [hA2ne, hA2p]⟩
    · intro x
      by_cases hx : x.asset_id = A1.asset_id
      · simp [hx]
      · by_cases hx2 : x.asset_id = A2.asset_id
        · simp [hx, hx2, hA2ne]
        · simp [hx, hx2]
  · exact ⟨_, _, rfl, by simp [hA1id], by simp, by simp, by simp,
      by simp [hA2id], by simp, by simp, by simp⟩

/-- Witness for C1: provisioning on the one-free-port witness store returns
the `Pending` customer 1 and bumps the splitter counter to 1. -/
theorem create_customer_provisions_witness :
    (create_customer wDBprov wCreate wAdmin 0).2 = .ok
      { customer_id := wDBprov.next_customer_id, name := wCreate.name,
        address := wCreate.address, pincode := wCreate.pincode,
        plan := wCreate.plan, status := CustomerStatus.Pending } ∧
    (create_customer wDBprov wCreate wAdmin 0).1.splitters.find?
        (fun s => decide (s.splitter_id = wCreate.splitter_id)) =
      some { wSplitter with used_ports := wSplitter.used_ports + 1 } := by
  obtain ⟨chosen, _, _, _, _, _, h6, _, _, _, h10, _⟩ :=
    create_customer_provisions wDBprov wCreate wAdmin 0 wSplitter wOnt wRouter
      wPortFree (by decide) (by decide) (by decide) (by decide) (by decide)
      (by decide) (by decide) (by decide) (by decide) (by decide) (by decide)
  exact ⟨h6, h10⟩

/-- C2: every failing run of `create_customer` commits nothing — the
post-state is the pre-state — and in particular with no free port on the
named splitter it fails with a 409 capacity conflict leaving the store (its
splitters included) untouched. -/
theorem create_customer_atomicity (db : DB) (c : CustomerCreate) (u : User)
    (now : Nat) :
    (∀ e, (create_customer db c u now).2 = .error e →
      (create_customer db c u now).1 = db) ∧
    (selectFreePort db.ports c.splitter_id = none →
      ∃ e, (create_customer db c u now).2 = .error e ∧ e.status_code = 409 ∧
        (create_customer db c u now).1 = db) := by
  constructor
  · intro e he
    rcases hsel : selectFreePort db.ports c.splitter_id with _ | p
    · simp [create_customer, hsel]
    · rcases hsp : db.splitters.find? (fun s => decide (s.splitter_id = c.splitter_id)) with _ | S
      · simp [create_customer, hsel, hsp]
      · rcases ho : db.assets.find? (fun a => decide (a.asset_id = c.ont_asset_id)) with _ | A1
        · simp [create_customer, hsel, hsp, ho]
        · by_cases h1 : A1.status = AssetStatus.available ∧ A1.type = AssetType.ONT
          · rcases hr : db.assets.find? (fun a => decide (a.asset_id = c.router_asset_id)) with _ | A2
            · simp [create_customer, hsel, hsp, ho, h1, hr]
            · by_cases h2 : A2.status = AssetStatus.available ∧ A2.type = AssetType.Router
              · simp [create_customer, hsel, hsp, ho, h1, hr, h2] at he
              · simp [create_customer, hsel, hsp, ho, h1, hr, h2]
          · simp [create_customer, hsel, hsp, ho, h1]
  · intro hnone
    simp only [create_customer, hnone]
    exact ⟨⟨409, "No free ports available for splitter ID " ++
      toString c.splitter_id ++ ". Please select another."⟩, rfl, rfl, trivial⟩

/-- Witness for C2: on the empty store the port query is empty, so
provisioning fails with 409 and returns the store unchanged. -/
theorem create_customer_atomicity_witness :
    ∃ e, (create_customer wDBempty wCreate wAdmin 0).2 = .error e ∧
      e.status_code = 409 ∧ (create_customer wDBempty wCreate wAdmin 0).1 = wDBempty :=
  (create_customer_atomicity wDBempty wCreate wAdmin 0).2 rfl

/-- Counterexample to C7 as stated: in a store where the named splitter does
not exist (and, referential integrity holding, no port row carries its id),
`create_customer` fails with the 409 capacity conflict from the port check,
not with 404 `NotFound`. -/
theorem create_customer_missing_splitter_counterexample :
    wDBempty.splitters.find?
      (fun s => decide (s.splitter_id = wCreate.splitter_id)) = none ∧
    ∃ e, (create_customer wDBempty wCreate wAdmin 0).2 = .error e ∧
      e.status_code = 409 ∧ ¬ e.status_code = 404 := by
  refine ⟨rfl, ⟨409, "No free ports available for splitter ID " ++
    toString wCreate.splitter_id ++ ". Please select another."⟩, rfl, rfl, by decide⟩

/-- C7 amended: when the named splitter does not exist the call always fails
leaving the store unchanged, but the port query runs first: the error is 404
`NotFound` exactly when a free port row still carries the missing splitter's
id, and otherwise — in particular whenever referential integrity holds — it
is the 409 capacity conflict. -/
theorem create_customer_missing_splitter (db : DB) (c : CustomerCreate)
    (u : User) (now : Nat)
    (hs : db.splitters.find? (fun s => decide (s.splitter_id = c.splitter_id)) = none) :
    (create_customer db c u now).1 = db ∧
    ∃ e, (create_customer db c u now).2 = .error e ∧
      (e.status_code = 404 ∨ e.status_code = 409) ∧
      (e.status_code = 404 ↔ (selectFreePort db.ports c.splitter_id).isSome = true) := by
  rcases hsel : selectFreePort db.ports c.splitter_id with _ | p
  · refine ⟨by simp [create_customer, hsel],
      ⟨409, "No free ports available for splitter ID " ++
        toString c.splitter_id ++ ". Please select another."⟩, ?_, Or.inr rfl, ?_⟩
    · simp [create_customer, hsel]
    · simp [hsel]
  · refine ⟨by simp [create_customer, hsel, hs], ⟨404, "Splitter not found."⟩,
      ?_, Or.inl rfl, ?_⟩
    · simp [create_customer, hsel, hs]
    · simp [hsel]

/-- Witness for the amended C7: on the empty store the missing splitter
yields the 409 branch of the disjunction. -/
theorem create_customer_missing_splitter_witness :
    (create_customer wDBempty wCreate wAdmin 0).1 = wDBempty ∧
    ∃ e, (create_customer wDBempty wCreate wAdmin 0).2 = .error e ∧
      (e.status_code = 404 ∨ e.status_code = 409) ∧
      (e.status_code = 404 ↔
        (selectFreePort wDBempty.ports wCreate.splitter_id).isSome = true) :=
  create_customer_missing_splitter wDBempty wCreate wAdmin 0 rfl

/-- Helper: on a customer already `Inactive`, the deactivation service takes
the early-return branch and hands back the pre-state with the loaded row. -/
theorem deactivate_already_inactive (db : DB) (cid : Nat) (u : User) (now : Nat)
    (cust : Customer)
    (hfind : db.customers.find? (fun c => decide (c.customer_id = cid)) = some cust)
    (hin : cust.status = CustomerStatus.Inactive) :
    deactivate_customer_and_provisioning db cid u now = (db, .ok cust) := by
  simp only [deactivate_customer_and_provisioning, hfind]
  rw [if_pos hin]

/-- Concrete active customer used by the deactivation witnesses. -/
def wCustomerActive : Customer :=
  { customer_id := 8, name := "Carol", address := "3 High St", pincode := "600003",
    plan := "Fiber100", status := CustomerStatus.Active }

/-- Concrete inactive customer used by the no-op witness. -/
def wCustomerInactive : Customer :=
  { customer_id := 9, name := "Dan", address := "4 Low St", pincode := "600004",
    plan := "Fiber50", status := CustomerStatus.Inactive }

/-- Concrete store holding the active customer to deactivate. -/
def wDBdeact : DB :=
  { customers := [wCustomerActive], splitters := [], ports := [], assets := [],
    asset_assignments := [], deployment_tasks := [], users := [],
    audit_logs := [], next_customer_id := 10, next_assignment_id := 1 }

/-- Concrete store holding the already-inactive customer. -/
def wDBinact : DB :=
  { customers := [wCustomerInactive], splitters := [], ports := [], assets := [],
    asset_assignments := [], deployment_tasks := [], users := [],
    audit_logs := [], next_customer_id := 10, next_assignment_id := 1 }

/-- C6: deactivation is idempotent — on an existing customer the first call
returns an `Inactive` customer, and a second call on the committed state
changes nothing at all (every Port, Asset, Splitter, AssetAssignment and
audit row is exactly as the first call left it) while again returning an
`Inactive` customer. -/
theorem deactivate_customer_idempotent (db : DB) (cid : Nat) (u1 u2 : User)
    (t1 t2 : Nat) (cust : Customer)
    (hfind : db.customers.find? (fun c => decide (c.customer_id = cid)) = some cust) :
    (∃ c1, (deactivate_customer_and_provisioning db cid u1 t1).2 = .ok c1 ∧
      c1.status = CustomerStatus.Inactive) ∧
    (deactivate_customer_and_provisioning
        (deactivate_customer_and_provisioning db cid u1 t1).1 cid u2 t2).1 =
      (deactivate_customer_and_provisioning db cid u1 t1).1 ∧
    (deactivate_customer_and_provisioning
        (deactivate_customer_and_provisioning db cid u1 t1).1 cid u2 t2).2 =
      (deactivate_customer_and_provisioning db cid u1 t1).2 ∧
    (∃ c2, (deactivate_customer_and_provisioning
        (deactivate_customer_and_provisioning db cid u1 t1).1 cid u2 t2).2 = .ok c2 ∧
      c2.status = CustomerStatus.Inactive) := by
  by_cases hin : cust.status = CustomerStatus.Inactive
  · have hr1 := deactivate_already_inactive db cid u1 t1 cust hfind hin
    have hr2 := deactivate_already_inactive db cid u2 t2 cust hfind hin
    rw [hr1]
    rw [show ((db, Except.ok cust) : DB × Except HTTPException Customer).1 = db from rfl]
    rw [hr2]
    exact ⟨⟨cust, rfl, hin⟩, rfl, rfl, ⟨cust, rfl, hin⟩⟩
  · have hr1snd : (deactivate_customer_and_provisioning db cid u1 t1).2 =
        .ok { cust with status := CustomerStatus.Inactive } := by
      simp only [deactivate_customer_and_provisioning, hfind]
      rw [if_neg hin]
    have hr1fst : (deactivate_customer_and_provisioning db cid u1 t1).1.customers =
        db.customers.map (fun c =>
          if c.customer_id = cust.customer_id then
            { c with status := CustomerStatus.Inactive }
          else c) := by
      simp only [deactivate_customer_and_provisioning, hfind]
      rw [if_neg hin]
    have hfind2 : (deactivate_customer_and_provisioning db cid u1 t1).1.customers.find?
        (fun c => decide (c.customer_id = cid)) =
        some { cust with status := CustomerStatus.Inactive } := by
      rw [hr1fst, find?_map_pres]
      · rw [hfind]
        simp
      · intro x
        by_cases hx : x.customer_id = cust.customer_id
        · simp [hx]
        · simp [hx]
    have hr2 := deactivate_already_inactive
      (deactivate_customer_and_provisioning db cid u1 t1).1 cid u2 t2
      { cust with status := CustomerStatus.Inactive } hfind2 rfl
    rw [hr2, hr1snd]
    exact ⟨⟨_, rfl, rfl⟩, rfl, rfl, ⟨_, rfl, rfl⟩⟩

/-- Witness for C6: deactivating the active witness customer twice — the
second call returns the state of the first untouched, `Inactive` both times. -/
theorem deactivate_customer_idempotent_witness :
    (∃ c1, (deactivate_customer_and_provisioning wDBdeact 8 wAdmin 0).2 = .ok c1 ∧
      c1.status = CustomerStatus.Inactive) ∧
    (deactivate_customer_and_provisioning
        (deactivate_customer_and_provisioning wDBdeact 8 wAdmin 0).1 8 wAdmin 1).1 =
      (deactivate_customer_and_provisioning wDBdeact 8 wAdmin 0).1 ∧
    (deactivate_customer_and_provisioning
        (deactivate_customer_and_provisioning wDBdeact 8 wAdmin 0).1 8 wAdmin 1).2 =
      (deactivate_customer_and_provisioning wDBdeact 8 wAdmin 0).2 ∧
    (∃ c2, (deactivate_customer_and_provisioning
        (deactivate_customer_and_provisioning wDBdeact 8 wAdmin 0).1 8 wAdmin 1).2 =
        .ok c2 ∧ c2.status = CustomerStatus.Inactive) :=
  deactivate_customer_idempotent wDBdeact 8 wAdmin wAdmin 0 1 wCustomerActive
    (by decide)

/-- C10: the idempotent no-op path of deactivation (customer already
`Inactive`) returns the pre-state wholesale — in particular it appends no
`AuditLog` row — and the `NotFound` path likewise returns the pre-state
with a 404 error and no audit row. -/
theorem deactivate_customer_noop_paths (db : DB) (customer_id : Nat) (u : User)
    (now : Nat) :
    (∀ cust, db.customers.find? (fun c => decide (c.customer_id = customer_id)) =
        some cust → cust.status = CustomerStatus.Inactive →
      deactivate_customer_and_provisioning db customer_id u now = (db, .ok cust)) ∧
    (db.customers.find? (fun c => decide (c.customer_id = customer_id)) = none →
      deactivate_customer_and_provisioning db customer_id u now =
        (db, .error ⟨404, "Customer not found."⟩)) := by
  constructor
  · intro cust hfind hinactive
    exact deactivate_already_inactive db customer_id u now cust hfind hinactive
  · intro hnone
    simp only [deactivate_customer_and_provisioning, hnone]

/-- Witness for C10: deactivating the already-inactive witness customer
returns the store unchanged (audit log included) with the stored row. -/
theorem deactivate_customer_noop_paths_witness :
    deactivate_customer_and_provisioning wDBinact 9 wAdmin 0 =
      (wDBinact, .ok wCustomerInactive) :=
  (deactivate_customer_noop_paths wDBinact 9 wAdmin 0).1 wCustomerInactive
    (by decide) (by decide)

/-- Concrete assigned ONT with an open assignment row, for the swap witness. -/
def wOntAssigned : Asset :=
  { asset_id := 23, type := AssetType.ONT, model := "ONT-Y",
    serial_number := "SN-ONT-2", status := AssetStatus.assigned,
    pincode := "600001", assigned_to_customer_id := some 5, port_id := some 11 }

/-- Concrete spare available ONT, swap target. -/
def wOntSpare : Asset :=
  { asset_id := 24, type := AssetType.ONT, model := "ONT-Z",
    serial_number := "SN-ONT-3", status := AssetStatus.available,
    pincode := "600001", assigned_to_customer_id := none, port_id := none }

/-- Concrete open (`bearing`, no return date) assignment row for asset 23. -/
def wOpenAssignment : AssetAssignment :=
  { assignment_id := 41, asset_id := 23, bearing_status := BearingStatus.bearing,
    date_of_issue := 0, date_of_return := none, customer_id := 5 }

/-- Concrete store ready for a swap of asset 23 for asset 24. -/
def wDBswap : DB :=
  { customers := [wCustomerPending], splitters := [], ports := [],
    assets := [wOntAssigned, wOntSpare], asset_assignments := [wOpenAssignment],
    deployment_tasks := [], users := [], audit_logs := [],
    next_customer_id := 6, next_assignment_id := 42 }

/-- Concrete swap payload: retire asset 23, hand out asset 24. -/
def wSwap : AssetSwap := { old_asset_id := 23, new_asset_id := 24 }

/-- C9: the open-assignment lookup of `swap_assets` — whose second conjunct
is the Python identity test `AssetAssignment.date_of_return is None`,
constant `false` at query-build time — matches no rows, so a successful swap
of an assigned old asset with an open assignment row appends the new
asset's fresh row but leaves every pre-existing assignment row, the open
one included, byte-for-byte unmodified: still `date_of_return = none` and
`bearing_status = bearing`, never closed. -/
theorem swap_assets_leaves_open_assignment (db : DB) (sd : AssetSwap) (u : User)
    (now : Nat) (o n : Asset) (row : AssetAssignment)
    (ho : db.assets.find? (fun a => decide (a.asset_id = sd.old_asset_id)) = some o)
    (hos : o.status = AssetStatus.assigned)
    (hn : db.assets.find? (fun a => decide (a.asset_id = sd.new_asset_id)) = some n)
    (hns : n.status = AssetStatus.available)
    (ht : o.type = n.type)
    (hrow : row ∈ db.asset_assignments) (hrid : row.asset_id = o.asset_id)
    (hropen : row.date_of_return = none)
    (hrbear : row.bearing_status = BearingStatus.bearing) :
    (db.asset_assignments.filter (fun x =>
      decide (x.asset_id = o.asset_id) && dateOfReturn_is_None_as_filter)) = [] ∧
    (∃ a, (swap_assets db sd u now).2 = .ok a) ∧
    (∃ nr, (swap_assets db sd u now).1.asset_assignments =
        db.asset_assignments ++ [nr] ∧
      nr.asset_id = sd.new_asset_id ∧ nr.bearing_status = BearingStatus.bearing ∧
      nr.date_of_return = none) ∧
    row ∈ (swap_assets db sd u now).1.asset_assignments ∧
    row.date_of_return = none ∧ row.bearing_status = BearingStatus.bearing := by
  have hfilter : (db.asset_assignments.filter (fun x =>
      decide (x.asset_id = o.asset_id) && dateOfReturn_is_None_as_filter)) = [] := by
    simp [dateOfReturn_is_None_as_filter]
  refine ⟨hfilter, ?_⟩
  simp only [swap_assets, ho, hn]
  rw [if_neg (not_not_intro hos), if_neg (not_not_intro hns),
    if_neg (not_not_intro ht)]
  rw [hfilter]
  simp only [List.head?_nil]
  have hnid : n.asset_id = sd.new_asset_id := by
    have := List.find?_some hn
    simpa using this
  refine ⟨⟨_, rfl⟩, ⟨_, rfl, hnid, rfl, rfl⟩, ?_, hropen, hrbear⟩
  exact List.mem_append_left _ hrow

/-- Witness for C9: swapping the assigned witness ONT for the spare leaves
the open row 41 untouched while appending the fresh row for asset 24. -/
theorem swap_assets_leaves_open_assignment_witness :
    (wDBswap.asset_assignments.filter (fun x =>
      decide (x.asset_id = wOntAssigned.asset_id) &&
      dateOfReturn_is_None_as_filter)) = [] ∧
    (∃ a, (swap_assets wDBswap wSwap wAdmin 7).2 = .ok a) ∧
    (∃ nr, (swap_assets wDBswap wSwap wAdmin 7).1.asset_assignments =
        wDBswap.asset_assignments ++ [nr] ∧
      nr.asset_id = wSwap.new_asset_id ∧ nr.bearing_status = BearingStatus.bearing ∧
      nr.date_of_return = none) ∧
    wOpenAssignment ∈ (swap_assets wDBswap wSwap wAdmin 7).1.asset_assignments ∧
    wOpenAssignment.date_of_return = none ∧
    wOpenAssignment.bearing_status = BearingStatus.bearing :=
  swap_assets_leaves_open_assignment wDBswap wSwap wAdmin 7 wOntAssigned wOntSpare
    wOpenAssignment (by decide) (by decide) (by decide) (by decide) (by decide)
    (by decide) (by decide) (by decide) (by decide)

end Server
